import Mathlib

/-!
Verification of the music-audio download service.

The repository contains three variants of the same Express server:
* src/app.js             - yt-dlp subprocess variant (namespace AppJs)
* src/unnamed/part_000   - play-dl streaming variant (namespace PlayDl)
* src/unnamed/part_001   - ytdl-core streaming variant (namespace YtdlCore)
* src/.history/app_20250824145517.js - historical snapshot (namespace History0824)

Each request handler is embedded as a pure function from the request body,
the ambient clock reading, the behaviour of the external downloader, the
filesystem state, and the database state, to a trace recording the HTTP
response and the resulting database and filesystem states.
-/

namespace MusicAudio

/-- JS truthiness of an optional string taken from a request body:
an absent field (undefined) and the empty string are falsy. -/
def jsTruthy : Option String → Bool
  | none => false
  | some s => !(s == "")

/-- node path.join of a directory and a file name. -/
def pathJoin (dir file : String) : String := dir ++ "/" ++ file

/-- Server configuration external to the handlers: the downloads directory
(path.join of the source dir and the string downloads) and the listening port. -/
structure Env where
  downloadDir : String
  port : Nat
  deriving DecidableEq

/-- A JSON value as produced by res.json; only the shapes the handlers emit. -/
inductive JsonVal where
  | str (s : String)
  | num (n : Nat)
  | boolean (b : Bool)
  deriving DecidableEq

/-- A JSON object: an ordered list of key/value pairs. -/
abbrev JsonObj := List (String × JsonVal)

/-- Whether a serialized JSON object carries a given key. -/
def objHasKey (k : String) (o : JsonObj) : Bool :=
  o.any (fun p => p.1 == k)

/-- An HTTP response: status code and JSON body. -/
structure HttpResponse where
  status : Nat
  body : JsonObj
  deriving DecidableEq

/-- One mongoose Download document.  The schema of part_000/part_001 has the
optional duration and thumbnail fields; app.js never sets them. -/
structure DownloadRecord where
  title : String
  url : String
  fileName : String
  fileType : String
  downloadDate : Nat
  filePath : String
  fileSize : Nat
  duration : Option String
  thumbnail : Option String
  deriving DecidableEq

/-- Serialization of a full document, as res.json(download) emits it: every
set schema field appears, including filePath. -/
def recordJson (r : DownloadRecord) : JsonObj :=
  [("title", JsonVal.str r.title), ("url", JsonVal.str r.url),
   ("fileName", JsonVal.str r.fileName), ("fileType", JsonVal.str r.fileType),
   ("downloadDate", JsonVal.num r.downloadDate),
   ("filePath", JsonVal.str r.filePath), ("fileSize", JsonVal.num r.fileSize)]
  ++ (match r.duration with | some d => [("duration", JsonVal.str d)] | none => [])
  ++ (match r.thumbnail with | some t => [("thumbnail", JsonVal.str t)] | none => [])

/-- Serialization after .select of minus filePath: the filePath field omitted. -/
def publicRecordJson (r : DownloadRecord) : JsonObj :=
  [("title", JsonVal.str r.title), ("url", JsonVal.str r.url),
   ("fileName", JsonVal.str r.fileName), ("fileType", JsonVal.str r.fileType),
   ("downloadDate", JsonVal.num r.downloadDate),
   ("fileSize", JsonVal.num r.fileSize)]
  ++ (match r.duration with | some d => [("duration", JsonVal.str d)] | none => [])
  ++ (match r.thumbnail with | some t => [("thumbnail", JsonVal.str t)] | none => [])

/-- The sort by downloadDate minus one that every listing route requests from
the store: newest first. -/
def sortByDateDesc (db : List DownloadRecord) : List DownloadRecord :=
  List.insertionSort (fun a b => b.downloadDate ≤ a.downloadDate) db

/-- The downloads directory as a flat map from absolute path to file size. -/
structure Fs where
  files : List (String × Nat)
  deriving DecidableEq

/-- fs.statSync, returning the size, or none when the path is absent
(statSync throws in that case and the callers catch). -/
def Fs.statSize (fs : Fs) (p : String) : Option Nat :=
  (fs.files.find? (fun e => e.1 == p)).map (·.2)

/-- fs.existsSync. -/
def Fs.existsSync (fs : Fs) (p : String) : Bool := (fs.statSize p).isSome

/-- fs.unlinkSync. -/
def Fs.unlinkSync (fs : Fs) (p : String) : Fs :=
  ⟨fs.files.filter (fun e => !(e.1 == p))⟩

/-- The decimal digit characters. -/
def digitChar (d : Nat) : Char := Char.ofNat (48 + d)

/-- Digits of a natural number accumulated most-significant first; the first
argument is fuel (any fuel at least the number is enough). -/
def natToDecimalCore : Nat → Nat → List Char → List Char
  | 0, _, acc => acc
  | _ + 1, 0, acc => acc
  | fuel + 1, n + 1, acc =>
      natToDecimalCore fuel ((n + 1) / 10) (digitChar ((n + 1) % 10) :: acc)

/-- Decimal rendering of a natural number, as JS template interpolation of an
integer-valued number produces. -/
def natToDecimal (n : Nat) : String :=
  if n = 0 then "0" else String.mk (natToDecimalCore n n [])

/-- Decimal rendering of an integer (String of a JS integer-valued number). -/
def intToDecimal : Int → String
  | Int.ofNat n => natToDecimal n
  | Int.negSucc n => "-" ++ natToDecimal (n + 1)

/-- JS String.prototype.padStart with target width 2 and pad character 0. -/
def padStart2 (s : String) : String :=
  if s.length < 2 then String.mk (List.replicate (2 - s.length) '0') ++ s else s

/-- A JS number argument: an (idealized, rational) numeric value, or a
non-numeric value whose Number coercion is NaN. -/
inductive JsNum where
  | num (q : ℚ)
  | nonNumeric
  deriving DecidableEq

/-- Number coercion followed by the or-zero guard: NaN becomes 0. -/
def coerceOrZero : JsNum → ℚ
  | JsNum.num q => q
  | JsNum.nonNumeric => 0

/-- Truncation toward zero, as the JS remainder operator computes internally. -/
def jsTrunc (q : ℚ) : Int := if q < 0 then -⌊-q⌋ else ⌊q⌋

/-- The JS remainder operator on numbers (sign of the dividend). -/
def jsMod (x y : ℚ) : ℚ := x - y * (jsTrunc (x / y) : ℚ)

/-- Characters kept by the title replace: word characters, whitespace, hyphen
(the regex deletes the complement of that class). -/
def keepTitleChar (c : Char) : Bool :=
  c.isAlphanum || c == '_' || c.isWhitespace || c == '-'

/-- JS String.prototype.trim: whitespace stripped from both ends. -/
def jsTrim (s : String) : String :=
  String.mk (((s.data.dropWhile Char.isWhitespace).reverse.dropWhile
    Char.isWhitespace).reverse)

/-- The title sanitization both streaming variants apply: delete every
character outside the word-whitespace-hyphen class, then trim. -/
def sanitizeTitle (s : String) : String :=
  jsTrim (String.mk (s.data.filter keepTitleChar))

/-- JS or-default on an optional string: undefined, null and the empty string
fall back to the default. -/
def jsOrStr (o : Option String) (d : String) : String :=
  match o with
  | none => d
  | some s => if s == "" then d else s

/-- The database keyed by document id. -/
abbrev Store := List (Nat × DownloadRecord)

/-- Model.findById. -/
def findById (db : Store) (id : Nat) : Option DownloadRecord :=
  (db.find? (fun e => e.1 == id)).map (·.2)

/-- Model.findByIdAndDelete, the resulting store. -/
def removeById (db : Store) (id : Nat) : Store :=
  db.filter (fun e => !(e.1 == id))

/-- The trace one submitDownload handler run leaves behind: the HTTP response,
how many times the external downloader was invoked, and the database and
filesystem states afterwards. -/
structure SubmitTrace where
  response : HttpResponse
  invocations : Nat
  dbAfter : List DownloadRecord
  fsAfter : Fs
  deriving DecidableEq

namespace AppJs

/-- Behaviour of the yt-dlp subprocess for one run: an error (the stderr text)
or success, and the filesystem state the exec callback observes. -/
structure ExecBehavior where
  error : Option String
  fsAfter : Fs
  deriving DecidableEq

/-- Destination filename derivation of src/app.js (lines 54-55). -/
def fileNameFor (now : Nat) (ty : String) : String :=
  "video_" ++ natToDecimal now ++ "." ++ (if ty == "audio" then "mp3" else "mp4")

/-- The POST /download handler of src/app.js (lines 47-98). -/
def postDownload (env : Env) (url ty : Option String) (now : Nat)
    (exec : ExecBehavior) (saveOk : Bool) (db : List DownloadRecord) (fs0 : Fs) :
    SubmitTrace :=
  if !jsTruthy url || !jsTruthy ty then
    ⟨⟨400, [("error", JsonVal.str "url and type required")]⟩, 0, db, fs0⟩
  else
    let t := ty.getD ""
    let filename := fileNameFor now t
    let filepath := pathJoin env.downloadDir filename
    match exec.error with
    | some stderrText =>
        ⟨⟨500, [("error", JsonVal.str "Download failed"),
                ("details", JsonVal.str stderrText)]⟩, 1, db, exec.fsAfter⟩
    | none =>
      match exec.fsAfter.statSize filepath with
      | none =>
          ⟨⟨500, [("error", JsonVal.str "File saved but DB insert failed")]⟩,
           1, db, exec.fsAfter⟩
      | some size =>
          let rec0 : DownloadRecord :=
            { title := filename, url := url.getD "", fileName := filename,
              fileType := t, downloadDate := now, filePath := filepath,
              fileSize := size, duration := none, thumbnail := none }
          if saveOk then
            ⟨⟨200, [("message", JsonVal.str (t ++ " downloaded successfully")),
                    ("link", JsonVal.str ("http://localhost:" ++ natToDecimal env.port
                      ++ "/downloads/" ++ filename))]⟩,
             1, db ++ [rec0], exec.fsAfter⟩
          else
            ⟨⟨500, [("error", JsonVal.str "File saved but DB insert failed")]⟩,
             1, db, exec.fsAfter⟩

/-- The GET /downloads-list handler of src/app.js (lines 101-109): full
documents, newest first, with no projection applied. -/
def downloadsListResponse (db : List DownloadRecord) : List JsonObj :=
  (sortByDateDesc db).map recordJson

end AppJs

namespace PlayDl

/-- src/unnamed/part_000 secondsToHms (lines 146-154). -/
def secondsToHms (v : JsNum) : String :=
  let seconds : ℚ := coerceOrZero v
  let h : Int := ⌊seconds / 3600⌋
  let m : Int := ⌊jsMod seconds 3600 / 60⌋
  let s : Int := ⌊jsMod seconds 60⌋
  if h > 0 then
    intToDecimal h ++ ":" ++ padStart2 (intToDecimal m) ++ ":" ++ padStart2 (intToDecimal s)
  else
    intToDecimal m ++ ":" ++ padStart2 (intToDecimal s)

/-- The video_details object play.video_info reports. -/
structure VideoDetails where
  title : Option String
  durationInSec : Option Nat
  durationRaw : Option String
  thumbnail : Option String
  deriving DecidableEq

/-- Title derivation of part_000 (line 75): sanitize, then fall back. -/
def derivedTitle (rawTitle : String) : String :=
  let t := sanitizeTitle rawTitle
  if t == "" then "video" else t

/-- fileExt selection and fileName template of part_000 (lines 80-81). -/
def makeFileName (title : String) (now : Nat) (ty : String) : String :=
  title ++ "_" ++ natToDecimal now ++ "." ++ (if ty == "audio" then "mp3" else "mp4")

/-- How the play-dl stream acquisition went (lines 85-101). -/
inductive StreamSetup where
  | ok
  | bothFailed
  | invalidStream
  deriving DecidableEq

/-- How the pipe to the write stream ended (lines 107-138). -/
inductive PipeOutcome where
  | finished
  | writeError
  deriving DecidableEq

/-- The POST /download handler of src/unnamed/part_000 (lines 55-143). -/
def postDownload (env : Env) (url ty : Option String) (infoRes : Option VideoDetails)
    (now : Nat) (setup : StreamSetup) (outcome : PipeOutcome) (fsAfterPipe : Fs)
    (saveOk : Bool) (db : List DownloadRecord) (fs0 : Fs) : SubmitTrace :=
  if !jsTruthy url || !jsTruthy ty then
    ⟨⟨400, [("error", JsonVal.str "Missing url or type")]⟩, 0, db, fs0⟩
  else
    match infoRes with
    | none =>
        ⟨⟨400, [("error", JsonVal.str "Unable to fetch video info. Check URL.")]⟩, 0, db, fs0⟩
    | some vd =>
      let rawTitle := jsOrStr vd.title "video"
      let title := derivedTitle rawTitle
      let durationSec := vd.durationInSec.getD 0
      let fileName := makeFileName title now (ty.getD "")
      let filePath := pathJoin env.downloadDir fileName
      match setup with
      | StreamSetup.bothFailed =>
          ⟨⟨500, [("error", JsonVal.str "Failed to get media stream")]⟩, 1, db, fs0⟩
      | StreamSetup.invalidStream =>
          ⟨⟨500, [("error", JsonVal.str "Invalid stream")]⟩, 1, db, fs0⟩
      | StreamSetup.ok =>
        match outcome with
        | PipeOutcome.writeError =>
            let fs1 := if fsAfterPipe.existsSync filePath
                       then fsAfterPipe.unlinkSync filePath else fsAfterPipe
            ⟨⟨500, [("error", JsonVal.str "File write failed")]⟩, 1, db, fs1⟩
        | PipeOutcome.finished =>
            match fsAfterPipe.statSize filePath with
            | none =>
                ⟨⟨500, [("error", JsonVal.str "Download complete but DB save failed")]⟩,
                 1, db, fsAfterPipe⟩
            | some size =>
                let rec0 : DownloadRecord :=
                  { title := rawTitle, url := url.getD "", fileName := fileName,
                    fileType := ty.getD "", downloadDate := now, filePath := filePath,
                    fileSize := size,
                    duration := some (jsOrStr vd.durationRaw
                      (secondsToHms (JsNum.num (durationSec : ℚ)))),
                    thumbnail := vd.thumbnail }
                if saveOk then
                  ⟨⟨200, [("success", JsonVal.boolean true),
                          ("message", JsonVal.str (ty.getD "" ++ " downloaded successfully")),
                          ("fileName", JsonVal.str fileName),
                          ("title", JsonVal.str rawTitle)]⟩,
                   1, db ++ [rec0], fsAfterPipe⟩
                else
                  ⟨⟨500, [("error", JsonVal.str "Download complete but DB save failed")]⟩,
                   1, db, fsAfterPipe⟩

/-- The GET /downloads handler of part_000 (lines 157-160): newest first with
the filePath field deselected. -/
def downloadsResponse (db : List DownloadRecord) : List JsonObj :=
  (sortByDateDesc db).map publicRecordJson

/-- The GET /download/:id handler of part_000 (lines 162-166). -/
def getDownloadResponse (db : Store) (id : Nat) : HttpResponse :=
  match findById db id with
  | none => ⟨404, [("error", JsonVal.str "Download not found")]⟩
  | some d => ⟨200, recordJson d⟩

/-- Outcome of the part_000 delete handler. -/
inductive DeleteOutcome where
  | notFound
  | success
  deriving DecidableEq

/-- Trace of one delete handler run. -/
structure DeleteTrace where
  outcome : DeleteOutcome
  dbAfter : Store
  fsAfter : Fs
  deriving DecidableEq

/-- The DELETE /download/:id handler of part_000 (lines 168-178): look the
record up, unlink the file when present, then delete the record. -/
def deleteDownload (db : Store) (fs : Fs) (id : Nat) : DeleteTrace :=
  match findById db id with
  | none => ⟨DeleteOutcome.notFound, db, fs⟩
  | some d =>
    let fs1 := if fs.existsSync d.filePath then fs.unlinkSync d.filePath else fs
    ⟨DeleteOutcome.success, removeById db id, fs1⟩

end PlayDl

namespace YtdlCore

/-- The videoDetails object ytdl.getInfo reports. -/
structure VideoDetails where
  title : String
  lengthSeconds : Nat
  thumbnail : Option String
  deriving DecidableEq

/-- src/unnamed/part_001 formatDuration (lines 297-303). -/
def formatDuration (seconds : Nat) : String :=
  let hrs := seconds / 3600
  let mins := seconds % 3600 / 60
  let secs := seconds % 60
  if hrs > 0 then
    natToDecimal hrs ++ ":" ++ padStart2 (natToDecimal mins) ++ ":" ++ padStart2 (natToDecimal secs)
  else
    natToDecimal mins ++ ":" ++ padStart2 (natToDecimal secs)

/-- Title sanitization and fileName template of part_001 (lines 292, 306-307);
no fallback is applied to an empty sanitized title. -/
def fileNameFor (info : VideoDetails) (now : Nat) (ty : String) : String :=
  sanitizeTitle info.title ++ "_" ++ natToDecimal now ++ "."
    ++ (if ty == "audio" then "mp3" else "mp4")

/-- How the ytdl stream piped to the write stream ended (lines 316-368). -/
inductive StreamOutcome where
  | finished
  | streamError (msg : String)
  | writeError (msg : String)
  deriving DecidableEq

/-- The POST /download handler of src/unnamed/part_001 (lines 281-374). -/
def postDownload (env : Env) (url ty : Option String) (urlValid : Bool)
    (infoRes : Except String VideoDetails) (now : Nat) (outcome : StreamOutcome)
    (fsAfterPipe : Fs) (saveOk : Bool) (db : List DownloadRecord) (fs0 : Fs) :
    SubmitTrace :=
  if !urlValid then
    ⟨⟨400, [("error", JsonVal.str "Invalid YouTube URL")]⟩, 0, db, fs0⟩
  else
    match infoRes with
    | Except.error msg =>
        ⟨⟨500, [("error", JsonVal.str ("Server error: " ++ msg))]⟩, 0, db, fs0⟩
    | Except.ok info =>
      let t := ty.getD ""
      let fileName := fileNameFor info now t
      let filePath := pathJoin env.downloadDir fileName
      match outcome with
      | StreamOutcome.streamError msg =>
          let fs1 := if fsAfterPipe.existsSync filePath
                     then fsAfterPipe.unlinkSync filePath else fsAfterPipe
          ⟨⟨500, [("error", JsonVal.str ("Download failed: " ++ msg))]⟩, 1, db, fs1⟩
      | StreamOutcome.writeError msg =>
          let fs1 := if fsAfterPipe.existsSync filePath
                     then fsAfterPipe.unlinkSync filePath else fsAfterPipe
          ⟨⟨500, [("error", JsonVal.str ("File write failed: " ++ msg))]⟩, 1, db, fs1⟩
      | StreamOutcome.finished =>
          match fsAfterPipe.statSize filePath with
          | none =>
              ⟨⟨500, [("error", JsonVal.str "Download completed but database save failed")]⟩,
               1, db, fsAfterPipe⟩
          | some size =>
              let rec0 : DownloadRecord :=
                { title := info.title, url := url.getD "", fileName := fileName,
                  fileType := t, downloadDate := now, filePath := filePath,
                  fileSize := size,
                  duration := some (formatDuration info.lengthSeconds),
                  thumbnail := info.thumbnail }
              if saveOk then
                ⟨⟨200, [("success", JsonVal.boolean true),
                        ("message", JsonVal.str (if t == "audio"
                          then "Audio downloaded successfully!"
                          else "Video downloaded successfully!")),
                        ("fileName", JsonVal.str fileName),
                        ("title", JsonVal.str info.title)]⟩,
                 1, db ++ [rec0], fsAfterPipe⟩
              else
                ⟨⟨500, [("error", JsonVal.str "Download completed but database save failed")]⟩,
                 1, db, fsAfterPipe⟩

/-- The GET /downloads handler of part_001 (lines 377-388): newest first with
the filePath field deselected. -/
def downloadsResponse (db : List DownloadRecord) : List JsonObj :=
  (sortByDateDesc db).map publicRecordJson

/-- The GET /download/:id handler of part_001 (lines 391-401): the full
document, filePath included. -/
def getDownloadResponse (db : Store) (id : Nat) : HttpResponse :=
  match findById db id with
  | none => ⟨404, [("error", JsonVal.str "Download not found")]⟩
  | some d => ⟨200, recordJson d⟩

/-- Trace of one part_001 delete handler run. -/
structure DeleteTrace where
  response : HttpResponse
  dbAfter : Store
  fsAfter : Fs
  deriving DecidableEq

/-- The DELETE /download/:id handler of part_001 (lines 404-423).  unlinkOk
and dbDeleteOk say whether fs.unlinkSync and findByIdAndDelete succeed; a
throw from either lands in the catch, which answers 500 Delete failed. -/
def deleteDownload (db : Store) (fs : Fs) (id : Nat) (unlinkOk dbDeleteOk : Bool) :
    DeleteTrace :=
  match findById db id with
  | none => ⟨⟨404, [("error", JsonVal.str "Download not found")]⟩, db, fs⟩
  | some d =>
    if fs.existsSync d.filePath then
      if unlinkOk then
        let fs1 := fs.unlinkSync d.filePath
        if dbDeleteOk then
          ⟨⟨200, [("success", JsonVal.boolean true),
                  ("message", JsonVal.str "Download deleted successfully")]⟩,
           removeById db id, fs1⟩
        else
          ⟨⟨500, [("error", JsonVal.str "Delete failed")]⟩, db, fs1⟩
      else
        ⟨⟨500, [("error", JsonVal.str "Delete failed")]⟩, db, fs⟩
    else
      if dbDeleteOk then
        ⟨⟨200, [("success", JsonVal.boolean true),
                ("message", JsonVal.str "Download deleted successfully")]⟩,
         removeById db id, fs⟩
      else
        ⟨⟨500, [("error", JsonVal.str "Delete failed")]⟩, db, fs⟩

end YtdlCore

namespace History0824

/-- Trace of the finish callback: the response (none when a stream error
already answered), database and filesystem afterwards. -/
structure FinishTrace where
  response : Option HttpResponse
  dbAfter : List DownloadRecord
  fsAfter : Fs
  deriving DecidableEq

/-- The writeStream finish callback of src/.history/app_20250824145517.js
(lines 105-133): stat the file and save the record; on a DB save failure this
snapshot DELETES the downloaded file before answering 500. -/
def onFinish (streamErrored : Bool) (rawTitle u fileName t filePath : String)
    (now : Nat) (durationRaw : Option String) (durationSec : Nat)
    (thumbnail : Option String) (saveOk : Bool)
    (db : List DownloadRecord) (fs : Fs) : FinishTrace :=
  if streamErrored then ⟨none, db, fs⟩
  else
    match fs.statSize filePath with
    | none =>
        ⟨some ⟨500, [("error", JsonVal.str "Download complete but DB save failed")]⟩, db, fs⟩
    | some size =>
        let rec0 : DownloadRecord :=
          { title := rawTitle, url := u, fileName := fileName, fileType := t,
            downloadDate := now, filePath := filePath, fileSize := size,
            duration := some (jsOrStr durationRaw
              (PlayDl.secondsToHms (JsNum.num (durationSec : ℚ)))),
            thumbnail := thumbnail }
        if saveOk then
          ⟨some ⟨200, [("success", JsonVal.boolean true),
                 ("message", JsonVal.str (if t == "audio"
                   then "Audio downloaded successfully!"
                   else "Video downloaded successfully!")),
                 ("fileName", JsonVal.str fileName),
                 ("title", JsonVal.str rawTitle)]⟩, db ++ [rec0], fs⟩
        else
          ⟨some ⟨500, [("error", JsonVal.str "Download complete but DB save failed")]⟩, db,
            if fs.existsSync filePath then fs.unlinkSync filePath else fs⟩

end History0824

/-- One submitDownload invocation event: a request identity and the Date.now
reading the handler observes; concurrent events may observe equal readings. -/
structure SubmitEvent where
  reqId : Nat
  now : Nat
  url : String
  kind : String
  deriving DecidableEq

/-- The destination filename an app.js invocation event derives. -/
def AppJs.eventFileName (e : SubmitEvent) : String := AppJs.fileNameFor e.now e.kind

/-- Reading a digit string back: the decimal accumulator step. -/
def decStep (a : Nat) (c : Char) : Nat := a * 10 + (c.toNat - 48)

/-- A sample persisted record used as concrete input in witnesses and
counterexamples. -/
def sampleRec : DownloadRecord :=
  { title := "Test Song", url := "https://example.com/watch?v=abc",
    fileName := "Test Song_1756000000000.mp3", fileType := "audio",
    downloadDate := 1756000000000,
    filePath := "/srv/app/downloads/Test Song_1756000000000.mp3",
    fileSize := 1024, duration := none, thumbnail := none }

/-- A sample downloads directory holding the sample record's file. -/
def sampleFs : Fs := ⟨[("/srv/app/downloads/Test Song_1756000000000.mp3", 1024)]⟩

/-- A downloads directory holding only a partially written app.js destination
file, as a failed yt-dlp run can leave behind. -/
def partialFs : Fs := ⟨[("/srv/app/downloads/video_1756000000000.mp3", 37)]⟩

/-! Helper lemmas about the embedded primitives. -/

theorem digitChar_toNat (d : Nat) (hd : d < 10) : (digitChar d).toNat = 48 + d := by
  interval_cases d <;> decide

theorem natToDecimalCore_foldl :
    ∀ fuel n : Nat, n ≤ fuel →
      ∀ acc : List Char, (natToDecimalCore fuel n acc).foldl decStep 0 = acc.foldl decStep n := by
  intro fuel
  induction fuel with
  | zero =>
      intro n hn acc
      interval_cases n
      rfl
  | succ f ih =>
    intro n hn acc
    cases n with
    | zero => rfl
    | succ k =>
      have hdiv : (k + 1) / 10 < k + 1 := Nat.div_lt_self (Nat.succ_pos k) (by decide)
      rw [natToDecimalCore, ih ((k + 1) / 10) (by omega)]
      show List.foldl decStep (decStep ((k + 1) / 10) (digitChar ((k + 1) % 10))) acc
        = List.foldl decStep (k + 1) acc
      congr 1
      unfold decStep
      rw [digitChar_toNat _ (Nat.mod_lt _ (by decide))]
      omega

theorem natToDecimal_foldl (k : Nat) : (natToDecimal k).data.foldl decStep 0 = k := by
  unfold natToDecimal
  split
  · next hk => subst hk; decide
  · next hk => exact natToDecimalCore_foldl k k (Nat.le_refl k) []

theorem natToDecimal_injective (m n : Nat) (h : natToDecimal m = natToDecimal n) : m = n := by
  have hm := natToDecimal_foldl m
  rw [h, natToDecimal_foldl n] at hm
  exact hm.symm

theorem findById_removeById (db : Store) (id : Nat) :
    findById (removeById db id) id = none := by
  induction db with
  | nil => rfl
  | cons e rest ih =>
    by_cases he : (e.1 == id) = true
    · simpa [removeById, List.filter_cons, he] using ih
    · simp only [removeById, List.filter_cons, he, Bool.not_false, if_true] at ih ⊢
      simp [findById, List.find?, he]

theorem existsSync_unlinkSync (fs : Fs) (p : String) :
    (fs.unlinkSync p).existsSync p = false := by
  simp only [Fs.existsSync, Fs.statSize, Fs.unlinkSync, Option.isSome_map]
  rw [List.find?_eq_none.mpr]
  · rfl
  · intro x hx
    have := List.of_mem_filter hx
    simpa using this

theorem intToDecimal_natCast (k : Nat) : intToDecimal (k : Int) = natToDecimal k := rfl

theorem padStart2_length (s : String) (h : s.length ≤ 2) : (padStart2 s).length = 2 := by
  unfold padStart2
  split
  · next hlt =>
      rw [String.length_append]
      show (List.replicate (2 - s.length) '0').length + s.length = 2
      rw [List.length_replicate]
      omega
  · next hge => omega

theorem natToDecimalCore_of_lt_ten (fuel k : Nat) (h1 : 0 < k) (h2 : k < 10)
    (acc : List Char) : natToDecimalCore (fuel + 1) k acc = digitChar k :: acc := by
  obtain ⟨j, rfl⟩ : ∃ j, k = j + 1 := ⟨k - 1, by omega⟩
  rw [natToDecimalCore, Nat.div_eq_of_lt h2, Nat.mod_eq_of_lt h2]
  cases fuel <;> rfl

theorem natToDecimal_length_le (m : Nat) (h : m < 100) : (natToDecimal m).length ≤ 2 := by
  unfold natToDecimal
  split
  · decide
  · next hm =>
    by_cases h10 : m < 10
    · obtain ⟨j, rfl⟩ : ∃ j, m = j + 1 := ⟨m - 1, by omega⟩
      rw [natToDecimalCore_of_lt_ten j (j + 1) (Nat.succ_pos j) h10]
      show (1 : Nat) ≤ 2
      decide
    · obtain ⟨j, rfl⟩ : ∃ j, m = j + 1 := ⟨m - 1, by omega⟩
      obtain ⟨i, hji⟩ : ∃ i, j = i + 1 := ⟨j - 1, by omega⟩
      rw [natToDecimalCore, hji,
        natToDecimalCore_of_lt_ten i ((i + 1 + 1) / 10) (by omega) (by omega)]
      show (2 : Nat) ≤ 2
      decide

theorem floor_div_nat_of_nonneg (q : ℚ) (hq : 0 ≤ q) (d : Nat) (hd : 0 < d) :
    ⌊q / (d : ℚ)⌋ = ((⌊q⌋.toNat / d : Nat) : Int) := by
  rw [Int.floor_toNat]
  rw [← Nat.floor_div_nat q d]
  rw [Int.natCast_floor_eq_floor]
  positivity

/-- Claim C10: for every non-negative number of seconds, secondsToHms returns
the hours-minutes-seconds rendering with a colon-separated hour part exactly
when the input is at least 3600, the minute-within-hour and second components
(zero-padded to two digits via padStart) recombine with the hour count to the
integer part of the input, and a non-numeric input is treated as 0, yielding
the string 0:00. -/
theorem C10_secondsToHms_format (q : ℚ) (hq : 0 ≤ q) :
    (∃ h m s : Nat,
      h * 3600 + m * 60 + s = (⌊q⌋).toNat ∧ m < 60 ∧ s < 60 ∧
      (padStart2 (natToDecimal m)).length = 2 ∧ (padStart2 (natToDecimal s)).length = 2 ∧
      PlayDl.secondsToHms (JsNum.num q) =
        (if 3600 ≤ q then
          natToDecimal h ++ ":" ++ padStart2 (natToDecimal m) ++ ":" ++ padStart2 (natToDecimal s)
        else natToDecimal m ++ ":" ++ padStart2 (natToDecimal s)))
    ∧ PlayDl.secondsToHms JsNum.nonNumeric = "0:00" := by
  constructor
  · set N : Nat := (⌊q⌋).toNat with hN
    have hfloor : ⌊q⌋ = (N : Int) := (Int.toNat_of_nonneg (Int.floor_nonneg.mpr hq)).symm
    refine ⟨N / 3600, N % 3600 / 60, N % 60, by omega, by omega, by omega, ?_, ?_, ?_⟩
    · exact padStart2_length _ (natToDecimal_length_le _ (by omega))
    · exact padStart2_length _ (natToDecimal_length_le _ (by omega))
    · have h3600 : ⌊q / (3600 : ℚ)⌋ = ((N / 3600 : Nat) : Int) := by
        have := floor_div_nat_of_nonneg q hq 3600 (by omega)
        rw [show (((3600 : Nat) : ℚ)) = (3600 : ℚ) by norm_num] at this
        exact this
      have h60 : ⌊q / (60 : ℚ)⌋ = ((N / 60 : Nat) : Int) := by
        have := floor_div_nat_of_nonneg q hq 60 (by omega)
        rw [show (((60 : Nat) : ℚ)) = (60 : ℚ) by norm_num] at this
        exact this
      have htr3600 : jsTrunc (q / 3600) = ((N / 3600 : Nat) : Int) := by
        unfold jsTrunc
        rw [if_neg (not_lt.mpr (by positivity)), h3600]
      have htr60 : jsTrunc (q / 60) = ((N / 60 : Nat) : Int) := by
        unfold jsTrunc
        rw [if_neg (not_lt.mpr (by positivity)), h60]
      have hm : ⌊jsMod q 3600 / 60⌋ = ((N % 3600 / 60 : Nat) : Int) := by
        unfold jsMod
        rw [htr3600]
        have harith : (q - 3600 * (((N / 3600 : Nat) : Int) : ℚ)) / 60
            = q / 60 - (((60 * (N / 3600) : Nat) : Int) : ℚ) := by
          push_cast
          ring
        rw [harith, Int.floor_sub_int, h60]
        push_cast
        omega
      have hs : ⌊jsMod q 60⌋ = ((N % 60 : Nat) : Int) := by
        unfold jsMod
        rw [htr60]
        have harith : q - 60 * (((N / 60 : Nat) : Int) : ℚ)
            = q - (((60 * (N / 60) : Nat) : Int) : ℚ) := by
          push_cast
          ring
        rw [harith, Int.floor_sub_int, hfloor]
        push_cast
        omega
      show PlayDl.secondsToHms (JsNum.num q) = _
      unfold PlayDl.secondsToHms coerceOrZero
      dsimp only
      rw [h3600, hm, hs]
      by_cases hc : (3600 : ℚ) ≤ q
      · have hc2 : 3600 ≤ N := by
          have : (3600 : Int) ≤ ⌊q⌋ := Int.le_floor.mpr (by exact_mod_cast hc)
          omega
        rw [if_pos (by exact_mod_cast Nat.div_pos hc2 (by omega)), if_pos hc]
        rfl
      · have hc2 : N < 3600 := by
          have : ⌊q⌋ < (3600 : Int) := Int.floor_lt.mpr (by push_cast; linarith)
          omega
        rw [if_neg (by simp [Nat.div_eq_of_lt hc2]), if_neg hc]
        rfl
  · unfold PlayDl.secondsToHms coerceOrZero jsMod jsTrunc
    norm_num
    rfl

/-- Claim C7: deleting twice yields success then notFound; deleting an
unknown id answers notFound and leaves the filesystem untouched; deleting a
record whose on-disk file is already absent still succeeds (and touches
nothing on disk). -/
theorem C7_delete_idempotent (db : Store) (fs : Fs) (id : Nat) :
    (findById db id = none →
      PlayDl.deleteDownload db fs id = ⟨PlayDl.DeleteOutcome.notFound, db, fs⟩)
    ∧ (∀ d, findById db id = some d →
        (PlayDl.deleteDownload db fs id).outcome = PlayDl.DeleteOutcome.success
        ∧ (PlayDl.deleteDownload (PlayDl.deleteDownload db fs id).dbAfter
            (PlayDl.deleteDownload db fs id).fsAfter id).outcome
            = PlayDl.DeleteOutcome.notFound
        ∧ (fs.existsSync d.filePath = false →
            (PlayDl.deleteDownload db fs id).outcome = PlayDl.DeleteOutcome.success
            ∧ (PlayDl.deleteDownload db fs id).fsAfter = fs)) := by
  constructor
  · intro h
    unfold PlayDl.deleteDownload
    rw [h]
  · intro d h
    refine ⟨?_, ?_, ?_⟩
    · unfold PlayDl.deleteDownload
      rw [h]
    · have hdb : (PlayDl.deleteDownload db fs id).dbAfter = removeById db id := by
        unfold PlayDl.deleteDownload
        rw [h]
      rw [hdb]
      unfold PlayDl.deleteDownload
      rw [findById_removeById]
    · intro hex
      unfold PlayDl.deleteDownload
      rw [h]
      simp [hex]

/-- Witness for C7 on a one-record store. -/
theorem C7_delete_idempotent_witness :
    (PlayDl.deleteDownload [(1, sampleRec)] sampleFs 2
      = ⟨PlayDl.DeleteOutcome.notFound, [(1, sampleRec)], sampleFs⟩)
    ∧ (PlayDl.deleteDownload [(1, sampleRec)] sampleFs 1).outcome
        = PlayDl.DeleteOutcome.success
    ∧ (PlayDl.deleteDownload (PlayDl.deleteDownload [(1, sampleRec)] sampleFs 1).dbAfter
        (PlayDl.deleteDownload [(1, sampleRec)] sampleFs 1).fsAfter 1).outcome
        = PlayDl.DeleteOutcome.notFound
    ∧ ((PlayDl.deleteDownload [(1, sampleRec)] (Fs.mk []) 1).outcome
        = PlayDl.DeleteOutcome.success
      ∧ (PlayDl.deleteDownload [(1, sampleRec)] (Fs.mk []) 1).fsAfter = Fs.mk []) :=
  ⟨(C7_delete_idempotent [(1, sampleRec)] sampleFs 2).1 (by decide),
   ((C7_delete_idempotent [(1, sampleRec)] sampleFs 1).2 sampleRec (by decide)).1,
   ((C7_delete_idempotent [(1, sampleRec)] sampleFs 1).2 sampleRec (by decide)).2.1,
   ((C7_delete_idempotent [(1, sampleRec)] (Fs.mk []) 1).2 sampleRec (by decide)).2.2
     (by decide)⟩

/-- Claim C8, amended: when the file removal succeeds and the record removal
fails, the part_001 delete handler answers the generic 500 Delete failed
response — exactly the response it gives when nothing at all was removed — so
no distinct PartialFailure outcome exists; and when the file removal fails,
the record removal is never attempted. -/
theorem C8_partial_failure_generic (db : Store) (fs : Fs) (id : Nat) (d : DownloadRecord)
    (h : findById db id = some d) (hex : fs.existsSync d.filePath = true) :
    (YtdlCore.deleteDownload db fs id true false).response
      = ⟨500, [("error", JsonVal.str "Delete failed")]⟩
    ∧ (YtdlCore.deleteDownload db fs id true false).dbAfter = db
    ∧ (YtdlCore.deleteDownload db fs id true false).fsAfter = fs.unlinkSync d.filePath
    ∧ (YtdlCore.deleteDownload db fs id false false).response
      = ⟨500, [("error", JsonVal.str "Delete failed")]⟩
    ∧ (YtdlCore.deleteDownload db fs id false false).dbAfter = db
    ∧ (YtdlCore.deleteDownload db fs id false false).fsAfter = fs := by
  unfold YtdlCore.deleteDownload
  rw [h]
  simp [hex]

/-- Witness for the amended C8 on a one-record store. -/
theorem C8_partial_failure_generic_witness :
    (YtdlCore.deleteDownload [(1, sampleRec)] sampleFs 1 true false).response
      = ⟨500, [("error", JsonVal.str "Delete failed")]⟩
    ∧ (YtdlCore.deleteDownload [(1, sampleRec)] sampleFs 1 true false).dbAfter
      = [(1, sampleRec)]
    ∧ (YtdlCore.deleteDownload [(1, sampleRec)] sampleFs 1 true false).fsAfter
      = sampleFs.unlinkSync sampleRec.filePath
    ∧ (YtdlCore.deleteDownload [(1, sampleRec)] sampleFs 1 false false).response
      = ⟨500, [("error", JsonVal.str "Delete failed")]⟩
    ∧ (YtdlCore.deleteDownload [(1, sampleRec)] sampleFs 1 false false).dbAfter
      = [(1, sampleRec)]
    ∧ (YtdlCore.deleteDownload [(1, sampleRec)] sampleFs 1 false false).fsAfter = sampleFs :=
  C8_partial_failure_generic [(1, sampleRec)] sampleFs 1 sampleRec (by decide) (by decide)

/-- Claim C8 as stated is false: in the run where the file removal succeeded
and the record removal failed, the file is gone, the record remains, and the
response is byte-for-byte the same generic 500 Delete failed answered by a run
in which neither resource was removed — not a distinct PartialFailure. -/
theorem C8_counterexample :
    (YtdlCore.deleteDownload [(1, sampleRec)] sampleFs 1 true false).fsAfter.existsSync
        sampleRec.filePath = false
    ∧ findById (YtdlCore.deleteDownload [(1, sampleRec)] sampleFs 1 true false).dbAfter 1
        = some sampleRec
    ∧ (YtdlCore.deleteDownload [(1, sampleRec)] sampleFs 1 true false).response
        = (YtdlCore.deleteDownload [(1, sampleRec)] sampleFs 1 false false).response
    ∧ (YtdlCore.deleteDownload [(1, sampleRec)] sampleFs 1 false false).fsAfter = sampleFs
    ∧ (YtdlCore.deleteDownload [(1, sampleRec)] sampleFs 1 false false).dbAfter
        = [(1, sampleRec)] := by
  decide

theorem fileName_template_inj (pre md ext : String) (m n : Nat) (h : m ≠ n) :
    pre ++ natToDecimal m ++ md ++ ext ≠ pre ++ natToDecimal n ++ md ++ ext := by
  intro heq
  apply h
  apply natToDecimal_injective
  have hd := congrArg String.data heq
  simp only [String.data_append, List.append_assoc] at hd
  have h1 := List.append_cancel_left hd
  have h2 := List.append_cancel_right h1
  exact congrArg String.mk h2

/-- Claim C9 as stated is false: two distinct (concurrent) invocation events
for the same url and kind that observe the same Date.now reading derive the
same destination fileName — the code disambiguates by clock reading only. -/
theorem C9_collision_counterexample :
    (⟨1, 1756000000000, "https://example.com/watch?v=abc", "audio"⟩ : SubmitEvent)
      ≠ ⟨2, 1756000000000, "https://example.com/watch?v=abc", "audio"⟩
    ∧ AppJs.eventFileName ⟨1, 1756000000000, "https://example.com/watch?v=abc", "audio"⟩
      = AppJs.eventFileName ⟨2, 1756000000000, "https://example.com/watch?v=abc", "audio"⟩ := by
  decide

/-- Claim C9, amended: two submitDownload invocations with identical url and
kind derive distinct destination fileNames whenever their observed Date.now
readings differ (in app.js, and in part_000 for any shared title); invocations
that observe the same millisecond reading collide. -/
theorem C9_filename_distinct (e1 e2 : SubmitEvent) (t : String) (hk : e1.kind = e2.kind)
    (hn : e1.now ≠ e2.now) :
    AppJs.eventFileName e1 ≠ AppJs.eventFileName e2
    ∧ PlayDl.makeFileName t e1.now e1.kind ≠ PlayDl.makeFileName t e2.now e2.kind := by
  constructor
  · unfold AppJs.eventFileName AppJs.fileNameFor
    rw [hk]
    exact fileName_template_inj "video_" "." _ e1.now e2.now hn
  · unfold PlayDl.makeFileName
    rw [hk]
    exact fileName_template_inj (t ++ "_") "." _ e1.now e2.now hn

/-- Witness for the amended C9 at two adjacent clock readings. -/
theorem C9_filename_distinct_witness :
    AppJs.eventFileName ⟨1, 1756000000000, "https://example.com/watch?v=abc", "audio"⟩
      ≠ AppJs.eventFileName ⟨2, 1756000000001, "https://example.com/watch?v=abc", "audio"⟩
    ∧ PlayDl.makeFileName "Test Song" 1756000000000 "audio"
      ≠ PlayDl.makeFileName "Test Song" 1756000000001 "audio" :=
  C9_filename_distinct ⟨1, 1756000000000, "https://example.com/watch?v=abc", "audio"⟩
    ⟨2, 1756000000001, "https://example.com/watch?v=abc", "audio"⟩ "Test Song" rfl
    (by decide)

/-- Witness for C10 at the concrete input 3661 seconds. -/
theorem C10_secondsToHms_format_witness :
    (0 : ℚ) ≤ 3661 ∧
    ((∃ h m s : Nat,
      h * 3600 + m * 60 + s = (⌊(3661 : ℚ)⌋).toNat ∧ m < 60 ∧ s < 60 ∧
      (padStart2 (natToDecimal m)).length = 2 ∧ (padStart2 (natToDecimal s)).length = 2 ∧
      PlayDl.secondsToHms (JsNum.num 3661) =
        (if 3600 ≤ (3661 : ℚ) then
          natToDecimal h ++ ":" ++ padStart2 (natToDecimal m) ++ ":" ++ padStart2 (natToDecimal s)
        else natToDecimal m ++ ":" ++ padStart2 (natToDecimal s)))
    ∧ PlayDl.secondsToHms JsNum.nonNumeric = "0:00") :=
  ⟨by norm_num, C10_secondsToHms_format 3661 (by norm_num)⟩

/-- A fully serialized document always carries the filePath key. -/
theorem objHasKey_filePath_recordJson (r : DownloadRecord) :
    objHasKey "filePath" (recordJson r) = true := by
  cases hd : r.duration <;> cases ht : r.thumbnail <;> simp [recordJson, objHasKey, hd, ht]

/-- The deselected serialization never carries the filePath key. -/
theorem objHasKey_filePath_publicRecordJson (r : DownloadRecord) :
    objHasKey "filePath" (publicRecordJson r) = false := by
  cases hd : r.duration <;> cases ht : r.thumbnail <;> simp [publicRecordJson, objHasKey, hd, ht]

/-- The guarded unlink the error handlers run leaves the path absent. -/
theorem existsSync_after_cleanup (fs : Fs) (p : String) :
    ((if fs.existsSync p then fs.unlinkSync p else fs).existsSync p) = false := by
  cases h : fs.existsSync p
  · simp [h]
  · simp [h, existsSync_unlinkSync]

/-- Claim C1, amended: submitDownload success responses and the /downloads
listings of part_000/part_001 never carry filePath, but app.js's
/downloads-list applies no projection and GET /download/:id answers the full
document, so both include the stored filePath for every found record. -/
theorem C1_storagePath_amended :
    (∀ db : List DownloadRecord,
      (PlayDl.downloadsResponse db).all (fun o => !objHasKey "filePath" o) = true
      ∧ (YtdlCore.downloadsResponse db).all (fun o => !objHasKey "filePath" o) = true
      ∧ (AppJs.downloadsListResponse db).all (fun o => objHasKey "filePath" o) = true)
    ∧ (∀ (st : Store) (id : Nat),
        (YtdlCore.getDownloadResponse st id).status = 404
        ∨ objHasKey "filePath" (YtdlCore.getDownloadResponse st id).body = true)
    ∧ (∀ env url ty now exec saveOk db fs0,
        objHasKey "filePath"
          ((AppJs.postDownload env url ty now exec saveOk db fs0).response.body) = false)
    ∧ (∀ env url ty infoRes now setup outcome fsP saveOk db fs0,
        objHasKey "filePath"
          ((PlayDl.postDownload env url ty infoRes now setup outcome fsP
            saveOk db fs0).response.body) = false)
    ∧ (∀ env url ty uv infoRes now outcome fsP saveOk db fs0,
        objHasKey "filePath"
          ((YtdlCore.postDownload env url ty uv infoRes now outcome fsP
            saveOk db fs0).response.body) = false) := by
  refine ⟨?_, ?_, ?_, ?_, ?_⟩
  · intro db
    refine ⟨?_, ?_, ?_⟩
    · rw [List.all_eq_true]
      intro o ho
      rw [PlayDl.downloadsResponse, List.mem_map] at ho
      obtain ⟨r, _, rfl⟩ := ho
      simp [objHasKey_filePath_publicRecordJson]
    · rw [List.all_eq_true]
      intro o ho
      rw [YtdlCore.downloadsResponse, List.mem_map] at ho
      obtain ⟨r, _, rfl⟩ := ho
      simp [objHasKey_filePath_publicRecordJson]
    · rw [List.all_eq_true]
      intro o ho
      rw [AppJs.downloadsListResponse, List.mem_map] at ho
      obtain ⟨r, _, rfl⟩ := ho
      simp [objHasKey_filePath_recordJson]
  · intro st id
    cases h : findById st id with
    | none => left; unfold YtdlCore.getDownloadResponse; rw [h]
    | some d =>
        right
        unfold YtdlCore.getDownloadResponse
        rw [h]
        exact objHasKey_filePath_recordJson d
  · intro env url ty now exec saveOk db fs0
    unfold AppJs.postDownload
    split
    · simp [objHasKey]
    · cases he : exec.error with
      | some s => simp [he, objHasKey]
      | none =>
          cases hs : exec.fsAfter.statSize
              (pathJoin env.downloadDir (AppJs.fileNameFor now (ty.getD ""))) with
          | none => simp [he, hs, objHasKey]
          | some size => cases saveOk <;> simp [he, hs, objHasKey]
  · intro env url ty infoRes now setup outcome fsP saveOk db fs0
    unfold PlayDl.postDownload
    split
    · simp [objHasKey]
    · cases infoRes with
      | none => simp [objHasKey]
      | some vd =>
          cases setup <;> try simp [objHasKey]
          cases outcome with
          | writeError => simp [objHasKey]
          | finished =>
              cases hs : fsP.statSize (pathJoin env.downloadDir
                  (PlayDl.makeFileName (PlayDl.derivedTitle (jsOrStr vd.title "video"))
                    now (ty.getD ""))) with
              | none => simp [hs, objHasKey]
              | some size =>
                  cases saveOk with
                  | false => simp [hs, objHasKey]
                  | true =>
                      simp [hs, objHasKey]
                      rintro a b h rfl
                      simp at h
  · intro env url ty uv infoRes now outcome fsP saveOk db fs0
    unfold YtdlCore.postDownload
    split
    · simp [objHasKey]
    · cases infoRes with
      | error msg => simp [objHasKey]
      | ok info =>
          cases outcome with
          | streamError msg => simp [objHasKey]
          | writeError msg => simp [objHasKey]
          | finished =>
              cases hs : fsP.statSize (pathJoin env.downloadDir
                  (YtdlCore.fileNameFor info now (ty.getD ""))) with
              | none => simp [hs, objHasKey]
              | some size => cases saveOk <;> simp [hs, objHasKey]

/-- Claim C1 as stated is false: the app.js listing and the part_001
GET /download/:id response for a concrete stored record include filePath. -/
theorem C1_storagePath_counterexample :
    AppJs.downloadsListResponse [sampleRec] = [recordJson sampleRec]
    ∧ objHasKey "filePath" (recordJson sampleRec) = true
    ∧ objHasKey "filePath" (YtdlCore.getDownloadResponse [(1, sampleRec)] 1).body = true := by
  decide


/-- Claim C2, amended: a request missing url or type is answered 400 with the
external downloader invoked zero times and no state change (app.js and
part_000); an unrecognized kind is NOT rejected. -/
theorem C2_validation (env : Env) (url ty : Option String) (now : Nat)
    (exec : AppJs.ExecBehavior) (saveOk : Bool) (db : List DownloadRecord) (fs0 : Fs)
    (infoRes : Option PlayDl.VideoDetails) (setup : PlayDl.StreamSetup)
    (outcome : PlayDl.PipeOutcome) (fsP : Fs)
    (h : jsTruthy url = false ∨ jsTruthy ty = false) :
    (AppJs.postDownload env url ty now exec saveOk db fs0).invocations = 0
    ∧ (AppJs.postDownload env url ty now exec saveOk db fs0).response.status = 400
    ∧ (AppJs.postDownload env url ty now exec saveOk db fs0).dbAfter = db
    ∧ (AppJs.postDownload env url ty now exec saveOk db fs0).fsAfter = fs0
    ∧ (PlayDl.postDownload env url ty infoRes now setup outcome fsP saveOk db fs0).invocations = 0
    ∧ (PlayDl.postDownload env url ty infoRes now setup outcome fsP
        saveOk db fs0).response.status = 400 := by
  have hcond : (!jsTruthy url || !jsTruthy ty) = true := by
    rcases h with h | h <;> simp [h]
  unfold AppJs.postDownload PlayDl.postDownload
  rw [if_pos hcond, if_pos hcond]
  exact ⟨rfl, rfl, rfl, rfl, rfl, rfl⟩

/-- Witness for the amended C2 at a request without url. -/
theorem C2_validation_witness :
    (AppJs.postDownload ⟨"/srv/app/downloads", 3000⟩ none (some "audio") 1756000000000
        ⟨none, Fs.mk []⟩ true [] (Fs.mk [])).invocations = 0
    ∧ (AppJs.postDownload ⟨"/srv/app/downloads", 3000⟩ none (some "audio") 1756000000000
        ⟨none, Fs.mk []⟩ true [] (Fs.mk [])).response.status = 400
    ∧ (AppJs.postDownload ⟨"/srv/app/downloads", 3000⟩ none (some "audio") 1756000000000
        ⟨none, Fs.mk []⟩ true [] (Fs.mk [])).dbAfter = []
    ∧ (AppJs.postDownload ⟨"/srv/app/downloads", 3000⟩ none (some "audio") 1756000000000
        ⟨none, Fs.mk []⟩ true [] (Fs.mk [])).fsAfter = Fs.mk []
    ∧ (PlayDl.postDownload ⟨"/srv/app/downloads", 3000⟩ none (some "audio") none 1756000000000
        PlayDl.StreamSetup.ok PlayDl.PipeOutcome.finished (Fs.mk []) true []
        (Fs.mk [])).invocations = 0
    ∧ (PlayDl.postDownload ⟨"/srv/app/downloads", 3000⟩ none (some "audio") none 1756000000000
        PlayDl.StreamSetup.ok PlayDl.PipeOutcome.finished (Fs.mk []) true []
        (Fs.mk [])).response.status = 400 :=
  C2_validation ⟨"/srv/app/downloads", 3000⟩ none (some "audio") 1756000000000
    ⟨none, Fs.mk []⟩ true [] (Fs.mk []) none PlayDl.StreamSetup.ok
    PlayDl.PipeOutcome.finished (Fs.mk []) (Or.inl (by decide))

/-- Claim C2 as stated is false: a request with kind banana (neither audio
nor video) is not rejected — the downloader is invoked once and the outcome
is the downloader's, not InvalidRequest. -/
theorem C2_badKind_counterexample :
    (AppJs.postDownload ⟨"/srv/app/downloads", 3000⟩ (some "https://example.com/watch?v=abc")
        (some "banana") 1756000000000 ⟨some "boom", Fs.mk []⟩ true [] (Fs.mk [])).invocations = 1
    ∧ (AppJs.postDownload ⟨"/srv/app/downloads", 3000⟩ (some "https://example.com/watch?v=abc")
        (some "banana") 1756000000000 ⟨some "boom", Fs.mk []⟩ true [] (Fs.mk [])).response.status
      = 500 := by
  decide

/-- Claim C3 as stated is false: when yt-dlp fails leaving a partial
destination file, the app.js error path answers 500 without deleting it —
the partial file remains on disk (no record is persisted). -/
theorem C3_partial_counterexample :
    (AppJs.postDownload ⟨"/srv/app/downloads", 3000⟩ (some "https://example.com/watch?v=abc")
        (some "audio") 1756000000000 ⟨some "network error", partialFs⟩ true []
        (Fs.mk [])).response.status = 500
    ∧ (AppJs.postDownload ⟨"/srv/app/downloads", 3000⟩ (some "https://example.com/watch?v=abc")
        (some "audio") 1756000000000 ⟨some "network error", partialFs⟩ true []
        (Fs.mk [])).fsAfter.existsSync "/srv/app/downloads/video_1756000000000.mp3" = true
    ∧ (AppJs.postDownload ⟨"/srv/app/downloads", 3000⟩ (some "https://example.com/watch?v=abc")
        (some "audio") 1756000000000 ⟨some "network error", partialFs⟩ true []
        (Fs.mk [])).dbAfter = [] := by
  decide

/-- Claim C3, amended: on a downloader failure no record is persisted in any
variant; part_001's stream/write error handlers delete an existing partial
file, but app.js's yt-dlp error path leaves the filesystem exactly as the
failed subprocess left it. -/
theorem C3_failure_no_record (env : Env) (url ty : Option String) (now : Nat)
    (stderrText : String) (fsA : Fs) (saveOk : Bool) (db : List DownloadRecord) (fs0 : Fs)
    (info : YtdlCore.VideoDetails) (msg : String) (fsP : Fs)
    (hu : jsTruthy url = true) (ht : jsTruthy ty = true) :
    (AppJs.postDownload env url ty now ⟨some stderrText, fsA⟩ saveOk db fs0).response.status = 500
    ∧ (AppJs.postDownload env url ty now ⟨some stderrText, fsA⟩ saveOk db fs0).dbAfter = db
    ∧ (AppJs.postDownload env url ty now ⟨some stderrText, fsA⟩ saveOk db fs0).fsAfter = fsA
    ∧ (YtdlCore.postDownload env url ty true (Except.ok info) now
        (YtdlCore.StreamOutcome.streamError msg) fsP saveOk db fs0).dbAfter = db
    ∧ (YtdlCore.postDownload env url ty true (Except.ok info) now
        (YtdlCore.StreamOutcome.streamError msg) fsP saveOk db fs0).fsAfter.existsSync
        (pathJoin env.downloadDir (YtdlCore.fileNameFor info now (ty.getD ""))) = false
    ∧ (YtdlCore.postDownload env url ty true (Except.ok info) now
        (YtdlCore.StreamOutcome.writeError msg) fsP saveOk db fs0).dbAfter = db
    ∧ (YtdlCore.postDownload env url ty true (Except.ok info) now
        (YtdlCore.StreamOutcome.writeError msg) fsP saveOk db fs0).fsAfter.existsSync
        (pathJoin env.downloadDir (YtdlCore.fileNameFor info now (ty.getD ""))) = false := by
  have hcond : (!jsTruthy url || !jsTruthy ty) = false := by simp [hu, ht]
  unfold AppJs.postDownload YtdlCore.postDownload
  simp only [hcond, Bool.false_eq_true, if_false, Bool.not_true, if_true]
  refine ⟨?_, ?_, ?_, ?_, ?_, ?_, ?_⟩ <;>
    first
      | rfl
      | trivial
      | exact existsSync_after_cleanup _ _

/-- Witness for the amended C3 at concrete failing runs. -/
theorem C3_failure_no_record_witness :
    (AppJs.postDownload ⟨"/srv/app/downloads", 3000⟩ (some "https://example.com/watch?v=abc")
        (some "audio") 1756000000000 ⟨some "network error", partialFs⟩ true []
        (Fs.mk [])).response.status = 500
    ∧ (AppJs.postDownload ⟨"/srv/app/downloads", 3000⟩ (some "https://example.com/watch?v=abc")
        (some "audio") 1756000000000 ⟨some "network error", partialFs⟩ true []
        (Fs.mk [])).dbAfter = []
    ∧ (AppJs.postDownload ⟨"/srv/app/downloads", 3000⟩ (some "https://example.com/watch?v=abc")
        (some "audio") 1756000000000 ⟨some "network error", partialFs⟩ true []
        (Fs.mk [])).fsAfter = partialFs
    ∧ (YtdlCore.postDownload ⟨"/srv/app/downloads", 3000⟩
        (some "https://example.com/watch?v=abc") (some "audio") true
        (Except.ok ⟨"Test Song", 185, none⟩) 1756000000000
        (YtdlCore.StreamOutcome.streamError "aborted")
        ⟨[("/srv/app/downloads/Test Song_1756000000000.mp3", 37)]⟩ true []
        (Fs.mk [])).dbAfter = []
    ∧ (YtdlCore.postDownload ⟨"/srv/app/downloads", 3000⟩
        (some "https://example.com/watch?v=abc") (some "audio") true
        (Except.ok ⟨"Test Song", 185, none⟩) 1756000000000
        (YtdlCore.StreamOutcome.streamError "aborted")
        ⟨[("/srv/app/downloads/Test Song_1756000000000.mp3", 37)]⟩ true []
        (Fs.mk [])).fsAfter.existsSync
        (pathJoin "/srv/app/downloads"
          (YtdlCore.fileNameFor ⟨"Test Song", 185, none⟩ 1756000000000 "audio")) = false
    ∧ (YtdlCore.postDownload ⟨"/srv/app/downloads", 3000⟩
        (some "https://example.com/watch?v=abc") (some "audio") true
        (Except.ok ⟨"Test Song", 185, none⟩) 1756000000000
        (YtdlCore.StreamOutcome.writeError "aborted")
        ⟨[("/srv/app/downloads/Test Song_1756000000000.mp3", 37)]⟩ true []
        (Fs.mk [])).dbAfter = []
    ∧ (YtdlCore.postDownload ⟨"/srv/app/downloads", 3000⟩
        (some "https://example.com/watch?v=abc") (some "audio") true
        (Except.ok ⟨"Test Song", 185, none⟩) 1756000000000
        (YtdlCore.StreamOutcome.writeError "aborted")
        ⟨[("/srv/app/downloads/Test Song_1756000000000.mp3", 37)]⟩ true []
        (Fs.mk [])).fsAfter.existsSync
        (pathJoin "/srv/app/downloads"
          (YtdlCore.fileNameFor ⟨"Test Song", 185, none⟩ 1756000000000 "audio")) = false :=
  C3_failure_no_record ⟨"/srv/app/downloads", 3000⟩ (some "https://example.com/watch?v=abc")
    (some "audio") 1756000000000 "network error" partialFs true [] (Fs.mk [])
    ⟨"Test Song", 185, none⟩ "aborted"
    ⟨[("/srv/app/downloads/Test Song_1756000000000.mp3", 37)]⟩ (by decide) (by decide)


/-- Claim C4, amended: when the downloader reports success but the
destination file is absent, app.js persists no record and answers 500 — but
with the same generic File saved but DB insert failed payload used for a
store-write failure, not a distinct InconsistentResult. -/
theorem C4_missing_file_generic (env : Env) (url ty : Option String) (now : Nat)
    (fsA : Fs) (saveOk : Bool) (db : List DownloadRecord) (fs0 : Fs)
    (hu : jsTruthy url = true) (ht : jsTruthy ty = true)
    (hmiss : fsA.statSize (pathJoin env.downloadDir
      (AppJs.fileNameFor now (ty.getD ""))) = none) :
    (AppJs.postDownload env url ty now ⟨none, fsA⟩ saveOk db fs0).response
      = ⟨500, [("error", JsonVal.str "File saved but DB insert failed")]⟩
    ∧ (AppJs.postDownload env url ty now ⟨none, fsA⟩ saveOk db fs0).dbAfter = db
    ∧ (AppJs.postDownload env url ty now ⟨none, fsA⟩ saveOk db fs0).fsAfter = fsA := by
  have hcond : (!jsTruthy url || !jsTruthy ty) = false := by simp [hu, ht]
  unfold AppJs.postDownload
  simp only [hcond, Bool.false_eq_true, if_false, hmiss]
  refine ⟨?_, ?_, ?_⟩ <;> first | rfl | trivial

/-- Witness for the amended C4 with an empty downloads directory. -/
theorem C4_missing_file_generic_witness :
    (AppJs.postDownload ⟨"/srv/app/downloads", 3000⟩ (some "https://example.com/watch?v=abc")
        (some "audio") 1756000000000 ⟨none, Fs.mk []⟩ true [] (Fs.mk [])).response
      = ⟨500, [("error", JsonVal.str "File saved but DB insert failed")]⟩
    ∧ (AppJs.postDownload ⟨"/srv/app/downloads", 3000⟩ (some "https://example.com/watch?v=abc")
        (some "audio") 1756000000000 ⟨none, Fs.mk []⟩ true [] (Fs.mk [])).dbAfter = []
    ∧ (AppJs.postDownload ⟨"/srv/app/downloads", 3000⟩ (some "https://example.com/watch?v=abc")
        (some "audio") 1756000000000 ⟨none, Fs.mk []⟩ true [] (Fs.mk [])).fsAfter = Fs.mk [] :=
  C4_missing_file_generic ⟨"/srv/app/downloads", 3000⟩ (some "https://example.com/watch?v=abc")
    (some "audio") 1756000000000 (Fs.mk []) true [] (Fs.mk []) (by decide) (by decide)
    (by decide)

/-- Claim C4 as stated is false: the missing-file run returns byte-for-byte
the same response as a persistence-failure run, so no distinct
InconsistentResult outcome exists (though no record is persisted). -/
theorem C4_not_distinct_counterexample :
    (AppJs.postDownload ⟨"/srv/app/downloads", 3000⟩ (some "https://example.com/watch?v=abc")
        (some "audio") 1756000000000 ⟨none, Fs.mk []⟩ true [] (Fs.mk [])).response
      = (AppJs.postDownload ⟨"/srv/app/downloads", 3000⟩
          (some "https://example.com/watch?v=abc") (some "audio") 1756000000000
          ⟨none, Fs.mk [("/srv/app/downloads/video_1756000000000.mp3", 1024)]⟩ false []
          (Fs.mk [])).response
    ∧ (AppJs.postDownload ⟨"/srv/app/downloads", 3000⟩ (some "https://example.com/watch?v=abc")
        (some "audio") 1756000000000 ⟨none, Fs.mk []⟩ true [] (Fs.mk [])).response.status = 500
    ∧ (AppJs.postDownload ⟨"/srv/app/downloads", 3000⟩ (some "https://example.com/watch?v=abc")
        (some "audio") 1756000000000 ⟨none, Fs.mk []⟩ true [] (Fs.mk [])).dbAfter = [] := by
  decide

/-- Claim C6: in app.js, part_000 and part_001, a store-write failure after a
completed download answers 500 and leaves the downloaded file on disk
untouched, persisting no record. (Amended only to except the historical
snapshot, which deletes the file.) -/
theorem C6_persistence_failure_retains (env : Env) (url ty : Option String) (now : Nat)
    (fsA : Fs) (sizeA : Nat) (db : List DownloadRecord) (fs0 : Fs)
    (vd : PlayDl.VideoDetails) (fsP : Fs) (sizeP : Nat)
    (info : YtdlCore.VideoDetails) (fsY : Fs) (sizeY : Nat)
    (hu : jsTruthy url = true) (ht : jsTruthy ty = true)
    (hstatA : fsA.statSize (pathJoin env.downloadDir
      (AppJs.fileNameFor now (ty.getD ""))) = some sizeA)
    (hstatP : fsP.statSize (pathJoin env.downloadDir
      (PlayDl.makeFileName (PlayDl.derivedTitle (jsOrStr vd.title "video")) now
        (ty.getD ""))) = some sizeP)
    (hstatY : fsY.statSize (pathJoin env.downloadDir
      (YtdlCore.fileNameFor info now (ty.getD ""))) = some sizeY) :
    (AppJs.postDownload env url ty now ⟨none, fsA⟩ false db fs0).response
      = ⟨500, [("error", JsonVal.str "File saved but DB insert failed")]⟩
    ∧ (AppJs.postDownload env url ty now ⟨none, fsA⟩ false db fs0).dbAfter = db
    ∧ (AppJs.postDownload env url ty now ⟨none, fsA⟩ false db fs0).fsAfter = fsA
    ∧ (PlayDl.postDownload env url ty (some vd) now PlayDl.StreamSetup.ok
        PlayDl.PipeOutcome.finished fsP false db fs0).response
      = ⟨500, [("error", JsonVal.str "Download complete but DB save failed")]⟩
    ∧ (PlayDl.postDownload env url ty (some vd) now PlayDl.StreamSetup.ok
        PlayDl.PipeOutcome.finished fsP false db fs0).dbAfter = db
    ∧ (PlayDl.postDownload env url ty (some vd) now PlayDl.StreamSetup.ok
        PlayDl.PipeOutcome.finished fsP false db fs0).fsAfter = fsP
    ∧ (YtdlCore.postDownload env url ty true (Except.ok info) now
        YtdlCore.StreamOutcome.finished fsY false db fs0).response
      = ⟨500, [("error", JsonVal.str "Download completed but database save failed")]⟩
    ∧ (YtdlCore.postDownload env url ty true (Except.ok info) now
        YtdlCore.StreamOutcome.finished fsY false db fs0).dbAfter = db
    ∧ (YtdlCore.postDownload env url ty true (Except.ok info) now
        YtdlCore.StreamOutcome.finished fsY false db fs0).fsAfter = fsY := by
  have hcond : (!jsTruthy url || !jsTruthy ty) = false := by simp [hu, ht]
  unfold AppJs.postDownload PlayDl.postDownload YtdlCore.postDownload
  simp only [hcond, Bool.false_eq_true, if_false, Bool.not_true, if_true,
    hstatA, hstatP, hstatY]
  refine ⟨?_, ?_, ?_, ?_, ?_, ?_, ?_, ?_, ?_⟩ <;> first | rfl | trivial

/-- Claim C6 as stated is false for the repository's historical snapshot
app_20250824145517.js: its DB-failure path unlinks the downloaded file before
answering 500, so the file is NOT left on disk there. -/
theorem C6_history_unlink_counterexample :
    (History0824.onFinish false "Test Song" "https://example.com/watch?v=abc"
        "Test Song_1756000000000.mp3" "audio"
        "/srv/app/downloads/Test Song_1756000000000.mp3" 1756000000000 (some "3:05") 185
        none false [] sampleFs).fsAfter.existsSync
        "/srv/app/downloads/Test Song_1756000000000.mp3" = false
    ∧ (History0824.onFinish false "Test Song" "https://example.com/watch?v=abc"
        "Test Song_1756000000000.mp3" "audio"
        "/srv/app/downloads/Test Song_1756000000000.mp3" 1756000000000 (some "3:05") 185
        none false [] sampleFs).response
      = some ⟨500, [("error", JsonVal.str "Download complete but DB save failed")]⟩
    ∧ (History0824.onFinish false "Test Song" "https://example.com/watch?v=abc"
        "Test Song_1756000000000.mp3" "audio"
        "/srv/app/downloads/Test Song_1756000000000.mp3" 1756000000000 (some "3:05") 185
        none false [] sampleFs).dbAfter = []
    ∧ sampleFs.existsSync "/srv/app/downloads/Test Song_1756000000000.mp3" = true := by
  decide


/-- Witness for C6 at concrete persistence-failure runs of all variants. -/
theorem C6_persistence_failure_retains_witness :
    (AppJs.postDownload ⟨"/srv/app/downloads", 3000⟩ (some "https://example.com/watch?v=abc")
        (some "audio") 1756000000000
        ⟨none, Fs.mk [("/srv/app/downloads/video_1756000000000.mp3", 1024)]⟩ false []
        (Fs.mk [])).response
      = ⟨500, [("error", JsonVal.str "File saved but DB insert failed")]⟩
    ∧ (AppJs.postDownload ⟨"/srv/app/downloads", 3000⟩ (some "https://example.com/watch?v=abc")
        (some "audio") 1756000000000
        ⟨none, Fs.mk [("/srv/app/downloads/video_1756000000000.mp3", 1024)]⟩ false []
        (Fs.mk [])).dbAfter = []
    ∧ (AppJs.postDownload ⟨"/srv/app/downloads", 3000⟩ (some "https://example.com/watch?v=abc")
        (some "audio") 1756000000000
        ⟨none, Fs.mk [("/srv/app/downloads/video_1756000000000.mp3", 1024)]⟩ false []
        (Fs.mk [])).fsAfter = Fs.mk [("/srv/app/downloads/video_1756000000000.mp3", 1024)]
    ∧ (PlayDl.postDownload ⟨"/srv/app/downloads", 3000⟩ (some "https://example.com/watch?v=abc")
        (some "audio") (some ⟨some "Test Song", some 185, some "3:05", none⟩) 1756000000000
        PlayDl.StreamSetup.ok PlayDl.PipeOutcome.finished sampleFs false [] (Fs.mk [])).response
      = ⟨500, [("error", JsonVal.str "Download complete but DB save failed")]⟩
    ∧ (PlayDl.postDownload ⟨"/srv/app/downloads", 3000⟩ (some "https://example.com/watch?v=abc")
        (some "audio") (some ⟨some "Test Song", some 185, some "3:05", none⟩) 1756000000000
        PlayDl.StreamSetup.ok PlayDl.PipeOutcome.finished sampleFs false [] (Fs.mk [])).dbAfter
      = []
    ∧ (PlayDl.postDownload ⟨"/srv/app/downloads", 3000⟩ (some "https://example.com/watch?v=abc")
        (some "audio") (some ⟨some "Test Song", some 185, some "3:05", none⟩) 1756000000000
        PlayDl.StreamSetup.ok PlayDl.PipeOutcome.finished sampleFs false [] (Fs.mk [])).fsAfter
      = sampleFs
    ∧ (YtdlCore.postDownload ⟨"/srv/app/downloads", 3000⟩
        (some "https://example.com/watch?v=abc") (some "audio") true
        (Except.ok ⟨"Test Song", 185, none⟩) 1756000000000
        YtdlCore.StreamOutcome.finished sampleFs false [] (Fs.mk [])).response
      = ⟨500, [("error", JsonVal.str "Download completed but database save failed")]⟩
    ∧ (YtdlCore.postDownload ⟨"/srv/app/downloads", 3000⟩
        (some "https://example.com/watch?v=abc") (some "audio") true
        (Except.ok ⟨"Test Song", 185, none⟩) 1756000000000
        YtdlCore.StreamOutcome.finished sampleFs false [] (Fs.mk [])).dbAfter = []
    ∧ (YtdlCore.postDownload ⟨"/srv/app/downloads", 3000⟩
        (some "https://example.com/watch?v=abc") (some "audio") true
        (Except.ok ⟨"Test Song", 185, none⟩) 1756000000000
        YtdlCore.StreamOutcome.finished sampleFs false [] (Fs.mk [])).fsAfter = sampleFs :=
  C6_persistence_failure_retains ⟨"/srv/app/downloads", 3000⟩
    (some "https://example.com/watch?v=abc") (some "audio") 1756000000000
    (Fs.mk [("/srv/app/downloads/video_1756000000000.mp3", 1024)]) 1024 [] (Fs.mk [])
    ⟨some "Test Song", some 185, some "3:05", none⟩ sampleFs 1024
    ⟨"Test Song", 185, none⟩ sampleFs 1024
    (by decide) (by decide) (by decide) (by decide) (by decide)

/-- Every part_000 destination filename ends in the kind-selected extension. -/
theorem makeFileName_ext (t : String) (now : Nat) (k : String) :
    ∃ b, PlayDl.makeFileName t now k = b ++ (if k == "audio" then ".mp3" else ".mp4") := by
  refine ⟨t ++ "_" ++ natToDecimal now, ?_⟩
  unfold PlayDl.makeFileName
  cases h : (k == "audio") <;>
    simp only [h, if_true, if_false, Bool.false_eq_true] <;>
    rw [String.append_assoc] <;> rfl

/-- Every app.js destination filename ends in the kind-selected extension. -/
theorem fileNameFor_ext (now : Nat) (k : String) :
    ∃ b, AppJs.fileNameFor now k = b ++ (if k == "audio" then ".mp3" else ".mp4") := by
  refine ⟨"video_" ++ natToDecimal now, ?_⟩
  unfold AppJs.fileNameFor
  cases h : (k == "audio") <;>
    simp only [h, if_true, if_false, Bool.false_eq_true] <;>
    rw [String.append_assoc] <;> rfl


/-- Claim C5, amended: every successful submitDownload persists one record
whose fileSizeBytes is the on-disk size and whose fileName ends in .mp3 for
kind audio (.mp4 otherwise); in part_000 the title equals the
downloader-reported title, but in app.js the title is the generated fileName,
not the reported title. -/
theorem C5_success_record_fields (env : Env) (u k titl : String) (vd : PlayDl.VideoDetails)
    (now : Nat) (fsP fsA : Fs) (sizeP sizeA : Nat) (db dbA : List DownloadRecord) (fs0 : Fs)
    (hu : u ≠ "") (hk : k ≠ "") (hvt : vd.title = some titl) (htne : titl ≠ "")
    (hstatP : fsP.statSize (pathJoin env.downloadDir
      (PlayDl.makeFileName (PlayDl.derivedTitle titl) now k)) = some sizeP)
    (hstatA : fsA.statSize (pathJoin env.downloadDir (AppJs.fileNameFor now k)) = some sizeA) :
    (∃ r : DownloadRecord,
      (PlayDl.postDownload env (some u) (some k) (some vd) now PlayDl.StreamSetup.ok
        PlayDl.PipeOutcome.finished fsP true db fs0).dbAfter = db ++ [r]
      ∧ r.fileSize = sizeP ∧ r.title = titl
      ∧ ∃ b, r.fileName = b ++ (if k == "audio" then ".mp3" else ".mp4"))
    ∧ (∃ r : DownloadRecord,
      (AppJs.postDownload env (some u) (some k) now ⟨none, fsA⟩ true dbA fs0).dbAfter
        = dbA ++ [r]
      ∧ r.fileSize = sizeA ∧ r.title = r.fileName
      ∧ ∃ b, r.fileName = b ++ (if k == "audio" then ".mp3" else ".mp4")) := by
  have hju : jsTruthy (some u) = true := by simp [jsTruthy, hu]
  have hjk : jsTruthy (some k) = true := by simp [jsTruthy, hk]
  have hraw : jsOrStr (some titl) "video" = titl := by simp [jsOrStr, htne]
  have hcond : (!jsTruthy (some u) || !jsTruthy (some k)) = false := by simp [hju, hjk]
  constructor
  · unfold PlayDl.postDownload
    simp only [hcond, Bool.false_eq_true, if_false, hvt, hraw, Option.getD_some, hstatP]
    refine ⟨_, rfl, rfl, rfl, makeFileName_ext _ now k⟩
  · unfold AppJs.postDownload
    simp only [hcond, Bool.false_eq_true, if_false, Option.getD_some, hstatA]
    refine ⟨_, rfl, rfl, rfl, fileNameFor_ext now k⟩

/-- Witness for the amended C5 at the spec scenario: stub title Test Song,
1024 bytes written, kind audio. -/
theorem C5_success_record_fields_witness :
    (∃ r : DownloadRecord,
      (PlayDl.postDownload ⟨"/srv/app/downloads", 3000⟩ (some "https://example.com/watch?v=abc")
        (some "audio") (some ⟨some "Test Song", some 185, some "3:05", none⟩) 1756000000000
        PlayDl.StreamSetup.ok PlayDl.PipeOutcome.finished sampleFs true [] (Fs.mk [])).dbAfter
        = [] ++ [r]
      ∧ r.fileSize = 1024 ∧ r.title = "Test Song"
      ∧ ∃ b, r.fileName = b ++ (if "audio" == "audio" then ".mp3" else ".mp4"))
    ∧ (∃ r : DownloadRecord,
      (AppJs.postDownload ⟨"/srv/app/downloads", 3000⟩ (some "https://example.com/watch?v=abc")
        (some "audio") 1756000000000
        ⟨none, Fs.mk [("/srv/app/downloads/video_1756000000000.mp3", 1024)]⟩ true []
        (Fs.mk [])).dbAfter = [] ++ [r]
      ∧ r.fileSize = 1024 ∧ r.title = r.fileName
      ∧ ∃ b, r.fileName = b ++ (if "audio" == "audio" then ".mp3" else ".mp4")) :=
  C5_success_record_fields ⟨"/srv/app/downloads", 3000⟩ "https://example.com/watch?v=abc"
    "audio" "Test Song" ⟨some "Test Song", some 185, some "3:05", none⟩ 1756000000000
    sampleFs (Fs.mk [("/srv/app/downloads/video_1756000000000.mp3", 1024)]) 1024 1024 [] []
    (Fs.mk []) (by decide) (by decide) rfl (by decide) (by decide) (by decide)

/-- Claim C5 as stated is false for app.js: with a downloader that writes
1024 bytes (stub title Test Song), the persisted record's title is the
generated fileName video_1756000000000.mp3, not the reported title. -/
theorem C5_title_counterexample :
    ((AppJs.postDownload ⟨"/srv/app/downloads", 3000⟩ (some "https://example.com/watch?v=abc")
        (some "audio") 1756000000000
        ⟨none, Fs.mk [("/srv/app/downloads/video_1756000000000.mp3", 1024)]⟩ true []
        (Fs.mk [])).dbAfter.map fun r => r.title) = ["video_1756000000000.mp3"]
    ∧ ((AppJs.postDownload ⟨"/srv/app/downloads", 3000⟩ (some "https://example.com/watch?v=abc")
        (some "audio") 1756000000000
        ⟨none, Fs.mk [("/srv/app/downloads/video_1756000000000.mp3", 1024)]⟩ true []
        (Fs.mk [])).dbAfter.map fun r => r.title) ≠ ["Test Song"]
    ∧ ((AppJs.postDownload ⟨"/srv/app/downloads", 3000⟩ (some "https://example.com/watch?v=abc")
        (some "audio") 1756000000000
        ⟨none, Fs.mk [("/srv/app/downloads/video_1756000000000.mp3", 1024)]⟩ true []
        (Fs.mk [])).dbAfter.map fun r => r.fileName) = ["video_1756000000000.mp3"] := by
  decide

end MusicAudio
